import Mathlib

/-!
Verification of the PhishX risk pipeline.

Shallow embedding of the Python sources:
* `src/scanner/risk_engine.py` (weighted 0.35/0.35/0.20/0.10 ensemble),
* `src/backend/scanner/risk_engine.py` (0.4/0.4/0.2 ensemble with malware
  hard override),
* `src/backend/circuit_breaker.py` (CLOSED/OPEN/HALF_OPEN state machine),
* `src/backend/rate_limiter.py` (fixed-window counters with TTL),
* `src/backend/app_new.py` (`call_nlp_service`) and `src/backend/tasks.py`
  (`enrich_nlp`, `process_email`, `persist_decision`).

Python floats are modelled by exact rationals; all scoring arithmetic in
the sources uses short decimal constants for which the claims at issue do
not depend on binary rounding.  Python `int()` (truncation toward zero)
and `round(x, 2)` (round-half-even to two decimals) are modelled
explicitly below.
-/

namespace PhishX

/-- Python `int(q)`: truncation toward zero. -/
def pyTrunc (q : ℚ) : ℤ :=
  if q < 0 then ⌈q⌉ else ⌊q⌋

/-- Round-half-to-even on rationals, modelling Python `round(x)`. -/
def roundHalfEven (q : ℚ) : ℤ :=
  let f := ⌊q⌋
  let r := q - f
  if r < 1/2 then f
  else if 1/2 < r then f + 1
  else if f % 2 = 0 then f else f + 1

/-- Python `round(x, 2)`: round-half-even to two decimal places. -/
def pyRound2 (q : ℚ) : ℚ :=
  (roundHalfEven (q * 100) : ℚ) / 100

theorem pyTrunc_mono {p q : ℚ} (h : p ≤ q) : pyTrunc p ≤ pyTrunc q := by
  unfold pyTrunc
  by_cases hp : p < 0
  · by_cases hq : q < 0
    · simp only [hp, hq, if_true]
      exact Int.ceil_le_ceil h
    · simp only [hp, hq, if_true, if_false]
      have h1 : ⌈p⌉ ≤ 0 := Int.ceil_le.mpr (by exact_mod_cast le_of_lt hp)
      have h2 : (0 : ℤ) ≤ ⌊q⌋ := Int.le_floor.mpr (by exact_mod_cast not_lt.mp hq)
      omega
  · have hq : ¬ q < 0 := fun hq => hp (lt_of_le_of_lt h hq)
    simp only [hp, hq, if_false]
    exact Int.floor_le_floor h

theorem floor_le_roundHalfEven (q : ℚ) : ⌊q⌋ ≤ roundHalfEven q := by
  unfold roundHalfEven
  simp only []
  split
  · omega
  · split
    · omega
    · split <;> omega

/-! ## `src/scanner/risk_engine.py`

`calculate_risk(url_results, text_findings, malware_hits, text_ml_score,
url_ml_score, url_ml_signals)`.  `url_results` is a list of dicts read via
`u.get("risk") == "high"`; `text_findings` is a dict read via
`.get("signals", [])`; `malware_hits` is tested only for truthiness.
`text_ml_score or 0.0` and `url_ml_score or 0.0` are value-preserving on
numbers (`0` maps to `0.0`), so they are modelled by the identity. -/

structure UrlInfo where
  risk : Option String
deriving DecidableEq, Repr

structure TextFindings where
  signals : List String
deriving DecidableEq, Repr

structure ScannerVerdict where
  risk_score : ℤ
  phishing_probability : ℚ
  verdict : String
  explainability : List String
deriving DecidableEq, Repr

/-- Embeds `sum(1 for u in url_results if u.get("risk") == "high")`. -/
def url_heuristic_risk (url_results : List UrlInfo) : ℕ :=
  (url_results.filter (fun u => u.risk = some "high")).length

/-- Embeds `combined_url_risk = max(min(url_heuristic_risk, 1), url_ml_score)`. -/
def combined_url_risk (url_results : List UrlInfo) (url_ml_score : ℚ) : ℚ :=
  max (min (url_heuristic_risk url_results : ℚ) 1) url_ml_score

/-- The weighted ensemble sum of `src/scanner/risk_engine.py` before
`int(min(score, 100))`. -/
def scanner_raw_score (url_results : List UrlInfo) (text_findings : TextFindings)
    (malware_hits : List String) (text_ml_score url_ml_score : ℚ) : ℚ :=
  let malware_risk : ℚ := if malware_hits ≠ [] then 1 else 0
  let heuristic_text_risk : ℕ := text_findings.signals.length
  (35/100 : ℚ) * combined_url_risk url_results url_ml_score * 100 +
    (35/100 : ℚ) * text_ml_score * 100 +
    (20/100 : ℚ) * malware_risk * 100 +
    (10/100 : ℚ) * min (heuristic_text_risk : ℚ) 3 * 10

/-- Embeds `calculate_risk` of `src/scanner/risk_engine.py`.  The final
`list(set(explainability))` is modelled by `List.dedup` (the claims about
it concern only duplicate-freeness and membership, not order). -/
def calculate_risk_scanner (url_results : List UrlInfo) (text_findings : TextFindings)
    (malware_hits : List String) (text_ml_score : ℚ) (url_ml_score : ℚ)
    (url_ml_signals : List String) : ScannerVerdict :=
  let heuristic_text_risk : ℕ := text_findings.signals.length
  let malware_risk : ℚ := if malware_hits ≠ [] then 1 else 0
  let curisk := combined_url_risk url_results url_ml_score
  let score : ℤ :=
    pyTrunc (min (scanner_raw_score url_results text_findings malware_hits
      text_ml_score url_ml_score) 100)
  let expl : List String :=
    (if curisk > 0 then ["Suspicious URL detected"] else []) ++
    (if url_ml_signals ≠ [] then url_ml_signals else []) ++
    (if text_ml_score > (7/10 : ℚ) then ["ML model detected phishing language"] else []) ++
    (if heuristic_text_risk > 0 then ["Suspicious email language detected"] else []) ++
    (if malware_risk ≠ 0 then ["Malware detected in attachment"] else [])
  { risk_score := score
    phishing_probability := pyRound2 ((score : ℚ) / 100)
    verdict :=
      if score < 30 then "SAFE" else if score < 70 then "SUSPICIOUS" else "MALICIOUS"
    explainability := expl.dedup }

/-! ## `src/backend/scanner/risk_engine.py`

`calculate_risk(*, text_ml_score, text_findings, url_result, malware_hits)`
with the 0.4/0.4/0.2 ensemble and the malware hard override
`total_score = max(total_score, 0.9)`. -/

structure UrlResultB where
  score : ℚ
  signals : List String
deriving DecidableEq, Repr

structure TextFindingsB where
  score : ℚ
  signals : List String
deriving DecidableEq, Repr

structure BackendVerdict where
  score : ℚ
  verdict : String
  reasons : List String
deriving DecidableEq, Repr

/-- The `reasons` list accumulated by the backend `calculate_risk` before
the `reasons or ["fallback risk calculation used"]` substitution. -/
def backend_natural_reasons (text_ml_score : ℚ) (text_findings : TextFindingsB)
    (url_result : UrlResultB) (malware_hits : List String) : List String :=
  (if text_ml_score > 0 then ["NLP phishing model detected risk"] else []) ++
  (if url_result.score > 0 then url_result.signals else []) ++
  text_findings.signals ++
  (if malware_hits ≠ [] then ["Malicious attachment detected"] else [])

/-- Embeds `calculate_risk` of `src/backend/scanner/risk_engine.py`. -/
def calculate_risk_backend (text_ml_score : ℚ) (text_findings : TextFindingsB)
    (url_result : UrlResultB) (malware_hits : List String) : BackendVerdict :=
  let total0 : ℚ :=
    text_ml_score * (4/10 : ℚ) + url_result.score * (4/10 : ℚ) + text_findings.score * (2/10 : ℚ)
  let total : ℚ := if malware_hits ≠ [] then max total0 (9/10 : ℚ) else total0
  let reasons := backend_natural_reasons text_ml_score text_findings url_result malware_hits
  { score := pyRound2 (min total 1)
    verdict :=
      if total ≥ (75/100 : ℚ) then "MALICIOUS" else if total ≥ (4/10 : ℚ) then "SUSPICIOUS" else "SAFE"
    reasons := if reasons = [] then ["fallback risk calculation used"] else reasons }

/-- If `(n : ℚ) ≤ q * 100` then `n / 100` bounds `round(q, 2)` from below. -/
theorem le_pyRound2 {q : ℚ} {n : ℤ} (h : (n : ℚ) ≤ q * 100) :
    (n : ℚ) / 100 ≤ pyRound2 q := by
  have h2 : n ≤ ⌊q * 100⌋ := Int.le_floor.mpr h
  have h3 := floor_le_roundHalfEven (q * 100)
  have h4 : (n : ℚ) ≤ (roundHalfEven (q * 100) : ℚ) := by exact_mod_cast le_trans h2 h3
  unfold pyRound2
  linarith

/-- C1 (counterexample): in `src/scanner/risk_engine.py`, a non-empty
`malware_hits` list with all other signals zero yields a final score of
20 on the 0-100 scale, well below the claimed floor of 90: that engine
has no hard malware override, only the 0.20 ensemble weight. -/
theorem c1_counterexample :
    (calculate_risk_scanner [] ⟨[]⟩ ["EICAR"] 0 0 []).risk_score = 20 ∧
      (calculate_risk_scanner [] ⟨[]⟩ ["EICAR"] 0 0 []).risk_score < 90 := by
  constructor <;>
    · simp [calculate_risk_scanner, scanner_raw_score, combined_url_risk,
        url_heuristic_risk, pyTrunc]
      norm_num

/-- C1 (amended): the malware hard override holds in the backend engine
`src/backend/scanner/risk_engine.py`: for every input with a non-empty
`malware_hits` list, the returned score is at least 0.9, regardless of
`text_ml_score`, the URL result and the heuristic findings. -/
theorem c1_malware_override_backend (text_ml_score : ℚ) (text_findings : TextFindingsB)
    (url_result : UrlResultB) (malware_hits : List String)
    (h : malware_hits ≠ []) :
    (9/10 : ℚ) ≤ (calculate_risk_backend text_ml_score text_findings url_result
      malware_hits).score := by
  unfold calculate_risk_backend
  simp only [h, ne_eq, not_false_eq_true, if_true, ite_true]
  have h9 : (9/10 : ℚ) ≤
      min (max (text_ml_score * (4/10 : ℚ) + url_result.score * (4/10 : ℚ) +
        text_findings.score * (2/10 : ℚ)) (9/10 : ℚ)) 1 :=
    le_min (le_max_right _ _) (by norm_num)
  have := le_pyRound2 (q := min (max (text_ml_score * (4/10 : ℚ) +
      url_result.score * (4/10 : ℚ) + text_findings.score * (2/10 : ℚ)) (9/10 : ℚ)) 1)
    (n := 90) (by linarith)
  calc (9/10 : ℚ) = (90 : ℤ) / 100 := by norm_num
    _ ≤ _ := this

/-- C1 (amended) witness at a concrete input. -/
theorem c1_malware_override_backend_witness :
    (9/10 : ℚ) ≤ (calculate_risk_backend 0 ⟨0, []⟩ ⟨0, []⟩ ["EICAR"]).score :=
  c1_malware_override_backend 0 ⟨0, []⟩ ⟨0, []⟩ ["EICAR"] (by simp)

/-- C6: the worked scenario for the canonical ensemble in
`src/scanner/risk_engine.py`: `url_results=[{risk:"high"}]`, heuristic
signals `["urgent","verify"]`, no malware, both ML scores 0 give
`combined_url_risk = 1`, total score 37, and verdict SUSPICIOUS with
30 ≤ 37 < 70. -/
theorem c6_worked_scenario :
    combined_url_risk [⟨some "high"⟩] 0 = 1 ∧
      scanner_raw_score [⟨some "high"⟩] ⟨["urgent", "verify"]⟩ [] 0 0 = 37 ∧
      (calculate_risk_scanner [⟨some "high"⟩] ⟨["urgent", "verify"]⟩ [] 0 0 []).risk_score
        = 37 ∧
      (calculate_risk_scanner [⟨some "high"⟩] ⟨["urgent", "verify"]⟩ [] 0 0 []).verdict
        = "SUSPICIOUS" ∧
      (30 : ℤ) ≤ 37 ∧ (37 : ℤ) < 70 := by
  refine ⟨?_, ?_, ?_, ?_, by norm_num, by norm_num⟩ <;>
    · simp [calculate_risk_scanner, scanner_raw_score, combined_url_risk,
        url_heuristic_risk, pyTrunc]
      try norm_num

/-- C7: in `src/scanner/risk_engine.py`, with `url_results`,
`text_findings`, `malware_hits` and `url_ml_signals` held fixed, the
returned total score is monotonically non-decreasing in `text_ml_score`
and in `url_ml_score`. -/
theorem c7_scanner_score_monotone (url_results : List UrlInfo)
    (text_findings : TextFindings) (malware_hits : List String)
    (url_ml_signals : List String) {t1 t2 u1 u2 : ℚ}
    (ht : t1 ≤ t2) (hu : u1 ≤ u2) :
    (calculate_risk_scanner url_results text_findings malware_hits t1 u1
      url_ml_signals).risk_score ≤
    (calculate_risk_scanner url_results text_findings malware_hits t2 u2
      url_ml_signals).risk_score := by
  have hc : combined_url_risk url_results u1 ≤ combined_url_risk url_results u2 :=
    max_le_max le_rfl hu
  have hs : scanner_raw_score url_results text_findings malware_hits t1 u1 ≤
      scanner_raw_score url_results text_findings malware_hits t2 u2 := by
    unfold scanner_raw_score
    dsimp only
    linarith
  simp only [calculate_risk_scanner]
  exact pyTrunc_mono (min_le_min hs le_rfl)

/-- C7 witness at a concrete input. -/
theorem c7_scanner_score_monotone_witness :
    (calculate_risk_scanner [] ⟨[]⟩ [] 0 0 []).risk_score ≤
      (calculate_risk_scanner [] ⟨[]⟩ [] 1 1 []).risk_score :=
  c7_scanner_score_monotone [] ⟨[]⟩ [] [] (by norm_num) (by norm_num)

/-- C9 (counterexample): both engines violate the claim as stated.  The
explanation list of the backend engine is not deduplicated — duplicated
heuristic signal strings pass through unchanged — and the scanner engine
returns an empty explanation list on an input where no natural signal
fired, so the literal fallback entry is absent exactly where the claim
requires it. -/
theorem c9_counterexample :
    ¬ (calculate_risk_backend 0 ⟨0, ["urgent", "urgent"]⟩ ⟨0, []⟩ []).reasons.Nodup ∧
      (calculate_risk_scanner [] ⟨[]⟩ [] 0 0 []).explainability = [] ∧
      "fallback risk calculation used" ∉
        (calculate_risk_scanner [] ⟨[]⟩ [] 0 0 []).explainability := by
  refine ⟨?_, ?_, ?_⟩
  · simp [calculate_risk_backend, backend_natural_reasons]
  · simp [calculate_risk_scanner, combined_url_risk, url_heuristic_risk]
    norm_num
  · simp [calculate_risk_scanner, combined_url_risk, url_heuristic_risk]

/-- C9 (amended): the explanation list of the scanner engine contains no
duplicate entries, and that engine itself never appends the fallback
literal — `"fallback risk calculation used"` can occur in its output
only if it was already present in the `url_ml_signals` input; the
backend engine returns exactly the accumulated signal strings, without
deduplication, substituting the literal precisely when no signal string
was accumulated, so its returned list is never empty. -/
theorem c9_explanations :
    (∀ url_results text_findings malware_hits (t u : ℚ) url_ml_signals,
      (calculate_risk_scanner url_results text_findings malware_hits t u
        url_ml_signals).explainability.Nodup) ∧
    (∀ url_results text_findings malware_hits (t u : ℚ) url_ml_signals,
      "fallback risk calculation used" ∈
        (calculate_risk_scanner url_results text_findings malware_hits t u
          url_ml_signals).explainability →
      "fallback risk calculation used" ∈ url_ml_signals) ∧
    (∀ (t : ℚ) text_findings url_result malware_hits,
      (calculate_risk_backend t text_findings url_result malware_hits).reasons =
        if backend_natural_reasons t text_findings url_result malware_hits = []
        then ["fallback risk calculation used"]
        else backend_natural_reasons t text_findings url_result malware_hits) ∧
    (∀ (t : ℚ) text_findings url_result malware_hits,
      (calculate_risk_backend t text_findings url_result malware_hits).reasons ≠ []) := by
  refine ⟨fun _ _ _ _ _ _ => ?_, fun ur tf mh t u sigs h => ?_,
    fun t tf ur mh => rfl, fun t tf ur mh => ?_⟩
  · simp only [calculate_risk_scanner]
    exact List.nodup_dedup _
  · simp only [calculate_risk_scanner, List.mem_dedup, List.mem_append] at h
    rcases h with ((((h | h) | h) | h) | h)
    · split at h <;> simp_all
    · split at h
      · exact h
      · simp at h
    · split at h <;> simp_all
    · split at h <;> simp_all
    · split at h <;> simp_all
  · simp only [calculate_risk_backend]
    split <;> simp_all

/-- C9 (amended) witness: with `url_ml_signals` containing the literal
and a high-risk URL, the literal reaches the scanner output, and the
theorem traces it back to the input list. -/
theorem c9_explanations_witness :
    "fallback risk calculation used" ∈ ["fallback risk calculation used"] :=
  c9_explanations.2.1 [⟨some "high"⟩] ⟨[]⟩ [] 0 0
    ["fallback risk calculation used"]
    (by
      simp [calculate_risk_scanner, combined_url_risk, url_heuristic_risk])

/-! ## `src/backend/circuit_breaker.py`

The breaker state machine.  Wall-clock time (`datetime.utcnow()`) is
passed explicitly as a natural-number timestamp; `elapsed.total_seconds()
>= recovery_timeout` becomes `recovery_timeout ≤ now - opened`.  The
behaviour of the wrapped function at a call is an explicit `CallOutcome`; the
`Bool` in the result of `CircuitBreaker.call` records whether the wrapped
function was actually executed (the `CircuitBreakerOpen` branch raises
before reaching it). -/

inductive CircuitState where
  | CLOSED
  | OPEN
  | HALF_OPEN
deriving DecidableEq, Repr

structure CircuitBreaker where
  failure_threshold : ℕ
  recovery_timeout : ℕ
  success_threshold : ℕ
  state : CircuitState
  failure_count : ℕ
  success_count : ℕ
  last_failure_time : Option ℕ
  opened_time : Option ℕ
  total_calls : ℕ
  successful_calls : ℕ
  failed_calls : ℕ
  rejected_calls : ℕ
deriving DecidableEq, Repr

/-- Embeds `CircuitBreaker.__init__`: CLOSED, all counters zero. -/
def CircuitBreaker.init (failure_threshold recovery_timeout success_threshold : ℕ) :
    CircuitBreaker :=
  ⟨failure_threshold, recovery_timeout, success_threshold,
    .CLOSED, 0, 0, none, none, 0, 0, 0, 0⟩

/-- Behaviour of the wrapped function at one call. -/
inductive CallOutcome where
  | ok
  | err
deriving DecidableEq, Repr

/-- What `CircuitBreaker.call` does: returns the value of the wrapped
function, re-raises its exception, or raises `CircuitBreakerOpen`
without executing the function. -/
inductive CallResult where
  | returned
  | raisedError
  | raisedCircuitOpen
deriving DecidableEq, Repr

/-- Embeds `_should_attempt_reset`. -/
def CircuitBreaker.shouldAttemptReset (b : CircuitBreaker) (now : ℕ) : Bool :=
  match b.opened_time with
  | none => false
  | some t => decide (b.recovery_timeout ≤ now - t)

/-- Embeds `_on_success`. -/
def CircuitBreaker.onSuccess (b : CircuitBreaker) : CircuitBreaker :=
  let b := { b with total_calls := b.total_calls + 1,
                    successful_calls := b.successful_calls + 1 }
  if b.state = .HALF_OPEN then
    let sc := b.success_count + 1
    if b.success_threshold ≤ sc then
      { b with success_count := sc, state := .CLOSED,
               failure_count := 0, last_failure_time := none }
    else
      { b with success_count := sc }
  else if b.state = .CLOSED then
    { b with failure_count := 0 }
  else b

/-- Embeds `_on_failure`. -/
def CircuitBreaker.onFailure (b : CircuitBreaker) (now : ℕ) : CircuitBreaker :=
  let b := { b with total_calls := b.total_calls + 1,
                    failed_calls := b.failed_calls + 1,
                    failure_count := b.failure_count + 1,
                    last_failure_time := some now }
  if b.state = .HALF_OPEN then
    { b with state := .OPEN, opened_time := some now }
  else if b.state = .CLOSED then
    if b.failure_threshold ≤ b.failure_count then
      { b with state := .OPEN, opened_time := some now }
    else b
  else b

/-- Executing the wrapped function and routing its outcome, i.e. the
`try/except` around `func(*args, **kwargs)` in `call`. -/
def CircuitBreaker.invokeStep (b : CircuitBreaker) (now : ℕ) (beh : CallOutcome) :
    CircuitBreaker × CallResult × Bool :=
  match beh with
  | .ok => (b.onSuccess, .returned, true)
  | .err => (b.onFailure now, .raisedError, true)

/-- Embeds `CircuitBreaker.call`: in OPEN, either transition to HALF_OPEN (when
the recovery timeout elapsed) and proceed, or raise `CircuitBreakerOpen`
without executing the function; otherwise execute the function. -/
def CircuitBreaker.call (b : CircuitBreaker) (now : ℕ) (beh : CallOutcome) :
    CircuitBreaker × CallResult × Bool :=
  if b.state = .OPEN then
    if b.shouldAttemptReset now then
      ({ b with state := .HALF_OPEN, success_count := 0 }).invokeStep now beh
    else
      ({ b with rejected_calls := b.rejected_calls + 1 }, .raisedCircuitOpen, false)
  else
    b.invokeStep now beh

/-- Sequential execution of a list of timestamped calls. -/
def CircuitBreaker.runCalls (b : CircuitBreaker) (calls : List (ℕ × CallOutcome)) :
    CircuitBreaker :=
  calls.foldl (fun s c => (s.call c.1 c.2).1) b

theorem call_closed_fail_safe (b : CircuitBreaker) (now : ℕ)
    (hst : b.state = .CLOSED) (hcnt : b.failure_count + 1 < b.failure_threshold) :
    let b' := (b.call now .err).1
    b'.state = .CLOSED ∧ b'.failure_count = b.failure_count + 1 ∧
      b'.failure_threshold = b.failure_threshold ∧
      b'.recovery_timeout = b.recovery_timeout ∧
      b'.success_threshold = b.success_threshold := by
  simp only [CircuitBreaker.call, CircuitBreaker.invokeStep, CircuitBreaker.onFailure, hst]
  simp only [reduceCtorEq, if_false]
  have : ¬ b.failure_threshold ≤ b.failure_count + 1 := by omega
  simp [this]

theorem call_closed_fail_trip (b : CircuitBreaker) (now : ℕ)
    (hst : b.state = .CLOSED) (hcnt : b.failure_threshold ≤ b.failure_count + 1) :
    let b' := (b.call now .err).1
    b'.state = .OPEN ∧ b'.opened_time = some now ∧
      b'.failure_threshold = b.failure_threshold ∧
      b'.recovery_timeout = b.recovery_timeout ∧
      b'.success_threshold = b.success_threshold := by
  simp only [CircuitBreaker.call, CircuitBreaker.invokeStep, CircuitBreaker.onFailure, hst]
  simp only [reduceCtorEq, if_false]
  simp [hcnt]

/-- Folding a chain of failing calls while CLOSED and strictly below the
threshold stays CLOSED and counts every failure. -/
theorem runCalls_closed_failures : ∀ (ts : List ℕ) (b : CircuitBreaker),
    b.state = .CLOSED → b.failure_count + ts.length < b.failure_threshold →
    let b' := b.runCalls (ts.map (fun t => (t, CallOutcome.err)))
    b'.state = .CLOSED ∧ b'.failure_count = b.failure_count + ts.length ∧
      b'.failure_threshold = b.failure_threshold ∧
      b'.recovery_timeout = b.recovery_timeout ∧
      b'.success_threshold = b.success_threshold := by
  intro ts
  induction ts with
  | nil =>
    intro b hst hcnt
    exact ⟨hst, rfl, rfl, rfl, rfl⟩
  | cons t ts ih =>
    intro b hst hcnt
    simp only [List.map_cons, CircuitBreaker.runCalls, List.foldl_cons]
    have hstep := call_closed_fail_safe b t hst (by simp at hcnt; omega)
    have := ih (b.call t .err).1 hstep.1 (by
      rw [hstep.2.1, hstep.2.2.1]
      simp at hcnt ⊢
      omega)
    simp only [CircuitBreaker.runCalls] at this
    refine ⟨this.1, ?_, ?_, ?_, ?_⟩
    · rw [this.2.1, hstep.2.1]
      simp
      omega
    · rw [this.2.2.1, hstep.2.2.1]
    · rw [this.2.2.2.1, hstep.2.2.2.1]
    · rw [this.2.2.2.2, hstep.2.2.2.2]

/-- C4: starting from a fresh CLOSED breaker with positive
`failure_threshold`, `failure_threshold` consecutive failed calls leave
the breaker OPEN (opened at the time of the last failure), and the very
next call issued before `recovery_timeout` has elapsed raises
`CircuitBreakerOpen` without invoking the wrapped function, leaving the
breaker OPEN. -/
theorem c4_breaker_fail_fast (f r s : ℕ) (hf : 1 ≤ f) (ts : List ℕ)
    (hlen : ts.length = f - 1) (tOpen tNext : ℕ)
    (hNext : tNext - tOpen < r) (beh : CallOutcome) :
    let b1 := (CircuitBreaker.init f r s).runCalls
      ((ts.map (fun t => (t, CallOutcome.err))) ++ [(tOpen, CallOutcome.err)])
    b1.state = .OPEN ∧ b1.opened_time = some tOpen ∧
      (b1.call tNext beh).2.1 = .raisedCircuitOpen ∧
      (b1.call tNext beh).2.2 = false ∧
      (b1.call tNext beh).1.state = .OPEN := by
  intro b1
  have h0 := runCalls_closed_failures ts (CircuitBreaker.init f r s) rfl
    (by simp [CircuitBreaker.init, hlen]; omega)
  set b0 := (CircuitBreaker.init f r s).runCalls
    (ts.map (fun t => (t, CallOutcome.err))) with hb0
  have h1 := call_closed_fail_trip b0 tOpen h0.1
    (by rw [h0.2.1, h0.2.2.1]; simp [CircuitBreaker.init, hlen]; omega)
  have hb1 : b1 = (b0.call tOpen CallOutcome.err).1 := by
    simp only [b1, CircuitBreaker.runCalls, List.foldl_append, List.foldl_cons,
      List.foldl_nil, hb0]
  have hr : b1.recovery_timeout = r := by
    rw [hb1, h1.2.2.2.1, h0.2.2.2.1]
    rfl
  have hreset : b1.shouldAttemptReset tNext = false := by
    rw [CircuitBreaker.shouldAttemptReset, hb1, h1.2.1]
    simp only [decide_eq_false_iff_not, not_le]
    rw [← hb1, hr] at *
    omega
  have hst : b1.state = .OPEN := by rw [hb1]; exact h1.1
  have hot : b1.opened_time = some tOpen := by rw [hb1]; exact h1.2.1
  refine ⟨hst, hot, ?_, ?_, ?_⟩ <;> simp [CircuitBreaker.call, hst, hreset]

/-- C4 witness: threshold 5, recovery timeout 60; failures at times
0,1,2,3,4 open the breaker; a call at time 10 is rejected fail-fast. -/
theorem c4_breaker_fail_fast_witness :
    let b1 := (CircuitBreaker.init 5 60 2).runCalls
      (([0, 1, 2, 3].map (fun t => (t, CallOutcome.err))) ++ [(4, CallOutcome.err)])
    b1.state = .OPEN ∧ b1.opened_time = some 4 ∧
      (b1.call 10 .ok).2.1 = .raisedCircuitOpen ∧
      (b1.call 10 .ok).2.2 = false ∧
      (b1.call 10 .ok).1.state = .OPEN :=
  c4_breaker_fail_fast 5 60 2 (by norm_num) [0, 1, 2, 3] (by simp) 4 10
    (by norm_num) .ok

theorem call_half_open_admits (b : CircuitBreaker) (now : ℕ) (beh : CallOutcome)
    (hst : b.state = .HALF_OPEN) :
    (b.call now beh).2.2 = true ∧ (b.call now beh).2.1 ≠ .raisedCircuitOpen := by
  cases beh <;> simp [CircuitBreaker.call, hst, CircuitBreaker.invokeStep]

theorem call_half_open_err_reopens (b : CircuitBreaker) (now : ℕ)
    (hst : b.state = .HALF_OPEN) :
    ((b.call now .err).1).state = .OPEN ∧
      ((b.call now .err).1).opened_time = some now := by
  simp [CircuitBreaker.call, hst, CircuitBreaker.invokeStep, CircuitBreaker.onFailure]

theorem call_half_open_ok_step (b : CircuitBreaker) (now : ℕ)
    (hst : b.state = .HALF_OPEN) :
    ((b.call now .ok).1).state =
      (if b.success_threshold ≤ b.success_count + 1 then .CLOSED else .HALF_OPEN) ∧
      ((b.call now .ok).1).success_count = b.success_count + 1 ∧
      ((b.call now .ok).1).success_threshold = b.success_threshold := by
  simp only [CircuitBreaker.call, hst, CircuitBreaker.invokeStep,
    CircuitBreaker.onSuccess]
  split
  · simp_all
  · simp_all
    split <;> simp_all

theorem call_closed_ok_stays (b : CircuitBreaker) (now : ℕ)
    (hst : b.state = .CLOSED) : ((b.call now .ok).1).state = .CLOSED := by
  simp [CircuitBreaker.call, hst, CircuitBreaker.invokeStep, CircuitBreaker.onSuccess]

/-- A chain of successful calls closes the breaker once enough HALF_OPEN
successes accumulate (and a CLOSED breaker stays CLOSED). -/
theorem runCalls_ok_closes : ∀ (ts : List ℕ) (b : CircuitBreaker),
    (b.state = .HALF_OPEN ∧ b.success_threshold ≤ b.success_count + ts.length ∧
      1 ≤ ts.length) ∨ b.state = .CLOSED →
    (b.runCalls (ts.map (fun t => (t, CallOutcome.ok)))).state = .CLOSED := by
  intro ts
  induction ts with
  | nil =>
    intro b h
    rcases h with ⟨_, _, h⟩ | h
    · simp at h
    · exact h
  | cons t ts ih =>
    intro b h
    simp only [List.map_cons, CircuitBreaker.runCalls, List.foldl_cons]
    rcases h with ⟨hst, hcnt, _⟩ | hst
    · have hstep := call_half_open_ok_step b t hst
      by_cases hclose : b.success_threshold ≤ b.success_count + 1
      · have : ((b.call t .ok).1).state = .CLOSED := by rw [hstep.1, if_pos hclose]
        exact ih _ (Or.inr this)
      · have h1 : ((b.call t .ok).1).state = .HALF_OPEN := by
          rw [hstep.1, if_neg hclose]
        refine ih _ (Or.inl ⟨h1, ?_, ?_⟩)
        · rw [hstep.2.1, hstep.2.2]
          simp at hcnt
          omega
        · simp at hcnt
          omega
    · exact ih _ (Or.inr (call_closed_ok_stays b t hst))

/-- C5 (counterexample): with `failure_threshold = 1`,
`recovery_timeout = 1`, `success_threshold = 2`: a failure at time 0
opens the breaker; the call at time 1 is the HALF_OPEN probe and
succeeds, leaving the breaker HALF_OPEN; a further call while the
breaker is still HALF_OPEN is admitted and executes the wrapped
function, instead of being rejected with `CircuitBreakerOpen` as the
single-probe gating of the claim requires. -/
theorem c5_counterexample :
    (((CircuitBreaker.init 1 1 2).call 0 .err).1).state = .OPEN ∧
      ((((CircuitBreaker.init 1 1 2).call 0 .err).1.call 1 .ok).1).state = .HALF_OPEN ∧
      (((((CircuitBreaker.init 1 1 2).call 0 .err).1.call 1 .ok).1).call 1 .ok).2.2
        = true ∧
      (((((CircuitBreaker.init 1 1 2).call 0 .err).1.call 1 .ok).1).call 1 .ok).2.1
        ≠ .raisedCircuitOpen := by
  decide

/-- C5 (amended): once `recovery_timeout` has elapsed since the breaker
opened, the next call transitions OPEN → HALF_OPEN and is admitted as a
probe; however, *every* call arriving while the breaker is HALF_OPEN is
admitted and executes the wrapped function (the code has no single-probe
gating); `success_threshold` consecutive successful HALF_OPEN calls
return the breaker to CLOSED, and a single HALF_OPEN failure returns it
to OPEN immediately. -/
theorem c5_half_open_behaviour :
    (∀ (b : CircuitBreaker) (t topen : ℕ) (beh : CallOutcome),
      b.state = .OPEN → b.opened_time = some topen → b.recovery_timeout ≤ t - topen →
      (b.call t beh).2.2 = true ∧ (b.call t beh).2.1 ≠ .raisedCircuitOpen) ∧
    (∀ (b : CircuitBreaker) (t : ℕ) (beh : CallOutcome),
      b.state = .HALF_OPEN →
      (b.call t beh).2.2 = true ∧ (b.call t beh).2.1 ≠ .raisedCircuitOpen) ∧
    (∀ (b : CircuitBreaker) (ts : List ℕ),
      b.state = .HALF_OPEN → b.success_count = 0 →
      ts.length = b.success_threshold → 1 ≤ b.success_threshold →
      (b.runCalls (ts.map (fun t => (t, CallOutcome.ok)))).state = .CLOSED) ∧
    (∀ (b : CircuitBreaker) (t : ℕ),
      b.state = .HALF_OPEN →
      ((b.call t .err).1).state = .OPEN ∧
        ((b.call t .err).1).opened_time = some t) := by
  refine ⟨?_, fun b t beh hst => call_half_open_admits b t beh hst,
    fun b ts hst hsc hlen hpos =>
      runCalls_ok_closes ts b (Or.inl ⟨hst, by omega, by omega⟩),
    fun b t hst => call_half_open_err_reopens b t hst⟩
  intro b t topen beh hst hot helapsed
  have hreset : b.shouldAttemptReset t = true := by
    simp [CircuitBreaker.shouldAttemptReset, hot, helapsed]
  cases beh <;> simp [CircuitBreaker.call, hst, hreset, CircuitBreaker.invokeStep]

/-- C5 (amended) witness at concrete breakers: an OPEN breaker opened at
time 0 with recovery timeout 60 admits the call at time 60; a HALF_OPEN
breaker admits a further call; two successful calls at success
threshold 2 close it; one failure reopens it. -/
theorem c5_half_open_behaviour_witness :
    ((⟨5, 60, 2, .OPEN, 5, 0, some 0, some 0, 5, 0, 5, 0⟩ :
        CircuitBreaker).call 60 .ok).2.2 = true ∧
      ((⟨5, 60, 2, .HALF_OPEN, 0, 1, none, some 0, 6, 1, 5, 0⟩ :
        CircuitBreaker).call 61 .ok).2.2 = true ∧
      ((⟨5, 60, 2, .HALF_OPEN, 0, 0, none, some 0, 6, 1, 5, 0⟩ :
        CircuitBreaker).runCalls ([60, 61].map (fun t => (t, CallOutcome.ok)))).state
        = .CLOSED ∧
      (((⟨5, 60, 2, .HALF_OPEN, 0, 0, none, some 0, 6, 1, 5, 0⟩ :
        CircuitBreaker).call 61 .err).1).state = .OPEN :=
  ⟨(c5_half_open_behaviour.1 _ 60 0 .ok rfl rfl (by norm_num)).1,
    (c5_half_open_behaviour.2.1 _ 61 .ok rfl).1,
    c5_half_open_behaviour.2.2.1 _ [60, 61] rfl rfl (by simp) (by norm_num),
    (c5_half_open_behaviour.2.2.2 _ 61 rfl).1⟩

/-! ## `call_nlp_service` (src/backend/app_new.py) and `enrich_nlp`
(src/backend/tasks.py)

The behaviour of the external NLP collaborator at one call is an explicit
`NlpBehavior`: a successful HTTP round-trip with a parsed JSON body, or
any exception (connection error, non-2xx status via `raise_for_status`,
or a timeout — all exceptions in Python).  The inner `_call_nlp` is
wrapped in the `nlp_service` circuit breaker; the outer
`try/except Exception` converts every raised error — including
`CircuitBreakerOpen` — into the fallback fragment. -/

structure NlpFragment where
  text_ml_score : ℚ
  model_version : String
deriving DecidableEq, Repr

inductive NlpBehavior where
  | ok (text_ml_score : ℚ) (model_version : String)
  | exn
  | timeout
deriving DecidableEq, Repr

/-- How the breaker sees an NLP call: any exception (including a timeout)
counts as a failure via `expected_exception=(Exception,)`. -/
def NlpBehavior.toOutcome : NlpBehavior → CallOutcome
  | .ok _ _ => .ok
  | .exn => .err
  | .timeout => .err

/-- Embeds `_call_nlp` through the `nlp_service` breaker: either the parsed
response, or an error (the exception of the wrapped function re-raised, or
`CircuitBreakerOpen`). -/
def callNlpThroughBreaker (b : CircuitBreaker) (now : ℕ) (beh : NlpBehavior) :
    CircuitBreaker × Except Unit NlpFragment :=
  let step := b.call now beh.toOutcome
  (step.1,
    match step.2.1, beh with
    | .returned, .ok s v => .ok ⟨s, v⟩
    | _, _ => .error ())

/-- Embeds `call_nlp_service(subject, body)`: returns a fragment in every case —
`{"text_ml_score": 0.0, "model_version": "disabled"}` when no service URL
is configured, the parsed response on success, and
`{"text_ml_score": 0.0, "model_version": "error"}` when anything was
raised. -/
def call_nlp_service (urlConfigured : Bool) (b : CircuitBreaker) (now : ℕ)
    (beh : NlpBehavior) : CircuitBreaker × NlpFragment :=
  if ¬ urlConfigured then (b, ⟨0, "disabled"⟩)
  else
    let step := callNlpThroughBreaker b now beh
    (step.1,
      match step.2 with
      | .ok frag => frag
      | .error _ => ⟨0, "error"⟩)

/-- Embeds `enrich_nlp(subject, body)` from `src/backend/tasks.py`: it returns
`call_nlp_service(subject, body)`; its own `except` branch (retry, then
`{"text_ml_score": 0.0, "model_version": "fallback"}`) is reachable only
if `call_nlp_service` itself raised, which it never does. -/
def enrich_nlp (urlConfigured : Bool) (b : CircuitBreaker) (now : ℕ)
    (beh : NlpBehavior) : CircuitBreaker × NlpFragment :=
  call_nlp_service urlConfigured b now beh

/-- C2: for every breaker state and every failing collaborator behaviour
— an exception, a timeout, or a call rejected because the breaker is open
— the NLP enrichment caller returns the fallback fragment with
`text_ml_score = 0` (it is a total function: no error is surfaced to the
pipeline caller). -/
theorem c2_nlp_fallback (urlConfigured : Bool) (b : CircuitBreaker) (now : ℕ)
    (beh : NlpBehavior)
    (h : beh = .exn ∨ beh = .timeout ∨
      (b.call now beh.toOutcome).2.1 = .raisedCircuitOpen) :
    (enrich_nlp urlConfigured b now beh).2.text_ml_score = 0 := by
  unfold enrich_nlp call_nlp_service callNlpThroughBreaker
  by_cases hc : urlConfigured
  · simp only [hc, not_true, if_neg, if_false]
    rcases h with h | h | h
    · subst h
      have : (b.call now NlpBehavior.exn.toOutcome).2.1 ≠ .returned := by
        simp only [NlpBehavior.toOutcome, CircuitBreaker.call,
          CircuitBreaker.invokeStep]
        split
        · split <;> simp
        · simp
      rcases hres : (b.call now NlpBehavior.exn.toOutcome).2.1 with _ | _ | _ <;>
        simp_all
    · subst h
      have : (b.call now NlpBehavior.timeout.toOutcome).2.1 ≠ .returned := by
        simp only [NlpBehavior.toOutcome, CircuitBreaker.call,
          CircuitBreaker.invokeStep]
        split
        · split <;> simp
        · simp
      rcases hres : (b.call now NlpBehavior.timeout.toOutcome).2.1 with _ | _ | _ <;>
        simp_all
    · cases beh <;> simp_all
  · simp [hc]

/-- C2 witness: a timing-out collaborator behind a fresh breaker yields
score 0. -/
theorem c2_nlp_fallback_witness :
    (enrich_nlp true (CircuitBreaker.init 5 60 2) 0 .timeout).2.text_ml_score = 0 :=
  c2_nlp_fallback true (CircuitBreaker.init 5 60 2) 0 .timeout (Or.inr (Or.inl rfl))

/-! ## `src/backend/rate_limiter.py`

One counter key of the Redis-backed fixed-window limiter
(`rate_limit_by_ip` / `rate_limit_by_key` / `rate_limit_by_tenant`): the
wrapper runs `current = INCR key`, then `EXPIRE key window` only when
`current == 1`, then rejects with 429 when `current > limit_count`.
Redis TTL semantics: a key whose expiry has passed is treated as absent
by `INCR`, which then recreates it at count 1.  `rate_limit_by_key` and
`rate_limit_by_tenant` derive the window from the limit string
(`/minute` → 60 s, `/hour` → 3600 s, `/day` → 86400 s, else 60);
`rate_limit_by_ip` always uses a 60-second window. -/

structure CounterEntry where
  count : ℕ
  expiry : ℕ
deriving DecidableEq, Repr

/-- Window parsing of `rate_limit_by_key` / `rate_limit_by_tenant`
(`"/minute" in limit` tested by substring). -/
def parseWindow (limit : String) : ℕ :=
  if (limit.splitOn "/minute").length > 1 then 60
  else if (limit.splitOn "/hour").length > 1 then 3600
  else if (limit.splitOn "/day").length > 1 then 86400
  else 60

/-- The window used by `rate_limit_by_ip`: always 60 seconds. -/
def ipWindow : ℕ := 60

/-- One rate-limited request against one counter key: `INCR`,
conditional `EXPIRE`, limit check.  Returns the new key state and
whether the request was admitted (`false` = rejected 429). -/
def rateLimitStep (st : Option CounterEntry) (now window limit : ℕ) :
    Option CounterEntry × Bool :=
  let live : Option CounterEntry :=
    match st with
    | some e => if now < e.expiry then some e else none
    | none => none
  match live with
  | none => (some ⟨1, now + window⟩, decide (1 ≤ limit))
  | some e => (some ⟨e.count + 1, e.expiry⟩, decide (e.count + 1 ≤ limit))

/-- Folding a sequence of timestamped requests over one counter key. -/
def runRequests (st : Option CounterEntry) (ts : List ℕ) (window limit : ℕ) :
    Option CounterEntry :=
  ts.foldl (fun s t => (rateLimitStep s t window limit).1) st

theorem runRequests_in_window : ∀ (ts : List ℕ) (c t0 window limit : ℕ),
    (∀ t ∈ ts, t < t0 + window) →
    runRequests (some ⟨c, t0 + window⟩) ts window limit =
      some ⟨c + ts.length, t0 + window⟩ := by
  intro ts
  induction ts with
  | nil => intro c t0 window limit _; rfl
  | cons t ts ih =>
    intro c t0 window limit h
    have ht : t < t0 + window := h t (List.mem_cons_self t ts)
    have hstep : (rateLimitStep (some ⟨c, t0 + window⟩) t window limit).1 =
        some ⟨c + 1, t0 + window⟩ := by
      simp [rateLimitStep, ht]
    simp only [runRequests, List.foldl_cons]
    rw [hstep]
    have := ih (c + 1) t0 window limit (fun x hx => h x (List.mem_cons_of_mem t hx))
    simp only [runRequests] at this
    rw [this]
    congr 1
    simp
    omega

/-- C8: for a scope with limit `N` per window `W` and a single identity:
the first request at `t0` creates the counter with expiry `t0 + W`;
the following `N - 1` requests inside the window only increment the
counter, leaving the expiry unextended; request `N + 1` inside the
window is rejected (429); and a request issued once `W` has elapsed
since the first request finds the key expired and is admitted, starting
a fresh window. -/
theorem c8_rate_window (W N : ℕ) (hN : 1 ≤ N) (t0 : ℕ) (rest : List ℕ)
    (hrest : ∀ t ∈ rest, t < t0 + W) (hlen : rest.length + 1 = N)
    (tin tout : ℕ) (hin : tin < t0 + W) (hout : t0 + W ≤ tout) :
    runRequests none (t0 :: rest) W N = some ⟨N, t0 + W⟩ ∧
      (rateLimitStep (runRequests none (t0 :: rest) W N) tin W N).2 = false ∧
      (rateLimitStep (runRequests none (t0 :: rest) W N) tout W N).2 = true ∧
      (rateLimitStep (runRequests none (t0 :: rest) W N) tout W N).1 =
        some ⟨1, tout + W⟩ := by
  have hfull : runRequests none (t0 :: rest) W N = some ⟨N, t0 + W⟩ := by
    have hstep : (rateLimitStep none t0 W N).1 = some ⟨1, t0 + W⟩ := by
      simp [rateLimitStep]
    simp only [runRequests, List.foldl_cons]
    rw [hstep]
    have := runRequests_in_window rest 1 t0 W N hrest
    simp only [runRequests] at this
    rw [this]
    congr 1
    simp
    omega
  refine ⟨hfull, ?_, ?_, ?_⟩
  · rw [hfull]
    simp only [rateLimitStep, hin, if_true]
    simp
  · rw [hfull]
    have : ¬ tout < t0 + W := by omega
    simp only [rateLimitStep, this, if_false]
    simpa using hN
  · rw [hfull]
    have : ¬ tout < t0 + W := by omega
    simp only [rateLimitStep, this, if_false]

/-- C8 witness: limit 3 per 60-second window; requests at 0, 1, 2 fill
the window, the 4th request at 30 is rejected, and a request at 60 is
admitted into a fresh window. -/
theorem c8_rate_window_witness :
    runRequests none (0 :: [1, 2]) 60 3 = some ⟨3, 0 + 60⟩ ∧
      (rateLimitStep (runRequests none (0 :: [1, 2]) 60 3) 30 60 3).2 = false ∧
      (rateLimitStep (runRequests none (0 :: [1, 2]) 60 3) 60 60 3).2 = true ∧
      (rateLimitStep (runRequests none (0 :: [1, 2]) 60 3) 60 60 3).1 =
        some ⟨1, 60 + 60⟩ :=
  c8_rate_window 60 3 (by norm_num) 0 [1, 2] (by simp) rfl 30 60 (by norm_num)
    (by norm_num)

/-! ## `persist_decision` (src/backend/tasks.py)

The task opens a connection, executes three INSERTs (`email_decisions`,
conditionally `soc_alerts`, `audit_log`) and only then commits; any
raised database error aborts the task before `conn.commit()`, so the
transaction is rolled back and the store is unchanged.  The
`soc_alerts` and `audit_log` rows get fresh `uuid4` ids (modelled by a
counter), so only the `email_decisions` insert can conflict. -/

structure DecisionRecord where
  id : String
  tenant_id : String
  risk_score : ℤ
  category : String
  decision : String
  findings : String
deriving DecidableEq, Repr

structure AlertRecord where
  alert_uuid : ℕ
  tenant_id : String
  email_id : String
  category : String
  status : String
deriving DecidableEq, Repr

structure Store where
  decisions : List DecisionRecord
  alerts : List AlertRecord
  audit_entries : ℕ
  next_uuid : ℕ
deriving DecidableEq, Repr

/-- Modelled from the spec: the base `email_decisions` schema is not in
`src/` (`migration.py` only alters an existing table); the data
model of the spec states the verdict is "persisted with the message identifier as
primary key", so an INSERT whose `id` already exists raises a
unique-constraint error. -/
def insertEmailDecision (st : Store) (r : DecisionRecord) : Except Unit Store :=
  if st.decisions.any (fun d => d.id = r.id) then .error ()
  else .ok { st with decisions := st.decisions ++ [r] }

/-- Embeds `persist_decision(email_id, tenant_id, risk_score, category,
decision, findings)`: `.error` means the task raised and the
transaction rolled back (the store of the caller is unchanged); `.ok st` is
the committed store. -/
def persist_decision (st : Store) (email_id tenant_id : String) (risk_score : ℤ)
    (category decision findings : String) : Except Unit Store :=
  match insertEmailDecision st
    ⟨email_id, tenant_id, risk_score, category, decision, findings⟩ with
  | .error e => .error e
  | .ok st1 =>
    let st2 :=
      if category = "WARM" ∨ category = "HOT" then
        { st1 with
          alerts := st1.alerts ++
            [⟨st1.next_uuid, tenant_id, email_id, category, "OPEN"⟩],
          next_uuid := st1.next_uuid + 1 }
      else st1
    .ok { st2 with audit_entries := st2.audit_entries + 1 }

/-- C3 (code evaluated at the failing input): persisting message "m1"
into an empty store succeeds, leaving one decision record and one alert
record (category HOT); persisting the same identifier again raises a
unique-constraint error — the duplicate insert is an error, not the
no-op/upsert the claim requires — and, the transaction having rolled
back, the store keeps exactly one decision record and one alert
record. -/
theorem c3_duplicate_persist_raises :
    persist_decision ⟨[], [], 0, 0⟩ "m1" "t1" 80 "HOT" "QUARANTINE" "" =
      .ok ⟨[⟨"m1", "t1", 80, "HOT", "QUARANTINE", ""⟩],
        [⟨0, "t1", "m1", "HOT", "OPEN"⟩], 1, 1⟩ ∧
      persist_decision ⟨[⟨"m1", "t1", 80, "HOT", "QUARANTINE", ""⟩],
          [⟨0, "t1", "m1", "HOT", "OPEN"⟩], 1, 1⟩
        "m1" "t1" 80 "HOT" "QUARANTINE" "" = .error () := by
  constructor
  · simp [persist_decision, insertEmailDecision]
  · simp [persist_decision, insertEmailDecision]

/-! ## `process_email` (src/backend/tasks.py)

The category/decision determination after the risk score is computed:
`risk_score >= warm_threshold` gives HOT/QUARANTINE,
`risk_score >= cold_threshold` gives WARM/ALLOW, otherwise COLD/ALLOW;
`enforce_decision` is queued only for WARM and HOT. -/

inductive Decision where
  | ALLOW
  | QUARANTINE
  | REJECT
deriving DecidableEq, Repr

inductive EmailCategory where
  | COLD
  | WARM
  | HOT
deriving DecidableEq, Repr

/-- The enforcement-decision branch of `process_email`. -/
def process_email_decision (risk_score cold_threshold warm_threshold : ℤ) :
    EmailCategory × Decision :=
  if warm_threshold ≤ risk_score then (.HOT, .QUARANTINE)
  else if cold_threshold ≤ risk_score then (.WARM, .ALLOW)
  else (.COLD, .ALLOW)

/-- C10: for every risk score and tenant thresholds, the
decision is ALLOW or QUARANTINE (never REJECT), QUARANTINE is produced
exactly when the risk score reaches `warm_threshold` — which is exactly
the HOT category — and WARM/COLD messages always get ALLOW. -/
theorem c10_decision_allow_or_quarantine
    (risk_score cold_threshold warm_threshold : ℤ) :
    ((process_email_decision risk_score cold_threshold warm_threshold).2 = .ALLOW ∨
      (process_email_decision risk_score cold_threshold warm_threshold).2
        = .QUARANTINE) ∧
    ((process_email_decision risk_score cold_threshold warm_threshold).2
        = .QUARANTINE ↔ warm_threshold ≤ risk_score) ∧
    ((process_email_decision risk_score cold_threshold warm_threshold).2
        = .QUARANTINE ↔
      (process_email_decision risk_score cold_threshold warm_threshold).1 = .HOT) ∧
    (((process_email_decision risk_score cold_threshold warm_threshold).1 = .WARM ∨
      (process_email_decision risk_score cold_threshold warm_threshold).1 = .COLD) →
      (process_email_decision risk_score cold_threshold warm_threshold).2 = .ALLOW) ∧
    (process_email_decision risk_score cold_threshold warm_threshold).2 ≠ .REJECT := by
  unfold process_email_decision
  split
  · simp_all
  · split <;> simp_all

end PhishX
